import Mathlib

/-!
Verification of the epoch state machine, action-building pipeline and control
loop of the oracle-core daemon (src/core/src/main.rs and the modules it
drives).  Pure functions of the source are embedded as Lean functions;
fallible paths return Except; external collaborators (node, wallet, box
repository, datapoint source) are passed in as explicit snapshot values.
-/

/-- A live epoch as read from the pool box.  Modelled from the spec:
`oracle_state::LiveEpochState` is not under src; per the spec data model it is
`LiveEpoch { epoch_start_height, pool_box_ref, refresh_box_ref }`, and the
decision step additionally consults whether the local operator has already
committed a fresh datapoint for this epoch.  Box references are held as
opaque numeric identifiers. -/
structure LiveEpochState where
  epoch_start_height : Nat
  pool_box_ref : Nat
  refresh_box_ref : Nat
  local_datapoint_published : Bool
  deriving DecidableEq, Repr

/-- Pool state: either no valid pool box was found yet, or an active epoch
exists (spec data model, `state::PoolState` is not under src). -/
inductive PoolState where
  | NeedsBootstrap
  | LiveEpoch (s : LiveEpochState)
  deriving DecidableEq, Repr

/-- The decision output of the epoch decision engine (spec data model). -/
inductive EpochCommand where
  | PublishDatapoint
  | Refresh
  | VoteUpdatePool
  | UpdatePool
  | PrepareUpdate
  deriving DecidableEq, Repr

/-- Modelled from the spec: `state::process` is not under src.  Per spec
section 4.2 it is a pure, total, deterministic function: `NeedsBootstrap`
yields none; for a live epoch compute `elapsed = height - epoch_start_height`,
return `Refresh` when `elapsed >= epoch_length`, otherwise return
`PublishDatapoint` when the local operator has not yet committed a fresh
datapoint for this epoch, else none.  Governance commands are never emitted
automatically. -/
def process (state : PoolState) (epoch_length : Nat) (height : Nat) :
    Option EpochCommand :=
  match state with
  | .NeedsBootstrap => none
  | .LiveEpoch s =>
    let elapsed := height - s.epoch_start_height
    if epoch_length ≤ elapsed then
      some .Refresh
    else if !s.local_datapoint_published then
      some .PublishDatapoint
    else
      none

/-- C1: for every live-epoch state with `epoch_length > 0`, `process` returns
`Refresh` exactly when `height >= epoch_start_height + epoch_length`; below
that boundary it returns `PublishDatapoint` or none, never `Refresh`. -/
theorem process_refresh_boundary (s : LiveEpochState)
    (epoch_length height : Nat) (hlen : 0 < epoch_length) :
    (process (.LiveEpoch s) epoch_length height = some .Refresh ↔
      s.epoch_start_height + epoch_length ≤ height) ∧
    (height < s.epoch_start_height + epoch_length →
      process (.LiveEpoch s) epoch_length height = some .PublishDatapoint ∨
      process (.LiveEpoch s) epoch_length height = none) := by
  unfold process
  by_cases hc : epoch_length ≤ height - s.epoch_start_height
  · simp only [hc, if_true]
    constructor
    · simp only [true_iff]
      omega
    · intro hlt
      omega
  · simp only [hc, if_false]
    constructor
    · constructor
      · intro h
        cases hpub : s.local_datapoint_published <;> simp [hpub] at h
      · intro h
        omega
    · intro _
      cases hpub : s.local_datapoint_published <;> simp [hpub]

/-- Witness for C1 at the spec's end-to-end scenario A: epoch length 30,
epoch start 100, heights 129 and 130. -/
theorem process_refresh_boundary_witness :
    ((process (.LiveEpoch ⟨100, 0, 0, false⟩) 30 130 = some .Refresh ↔
        100 + 30 ≤ 130) ∧
      (130 < 100 + 30 →
        process (.LiveEpoch ⟨100, 0, 0, false⟩) 30 130 = some .PublishDatapoint ∨
        process (.LiveEpoch ⟨100, 0, 0, false⟩) 30 130 = none)) ∧
    ((process (.LiveEpoch ⟨100, 0, 0, false⟩) 30 129 = some .Refresh ↔
        100 + 30 ≤ 129) ∧
      (129 < 100 + 30 →
        process (.LiveEpoch ⟨100, 0, 0, false⟩) 30 129 = some .PublishDatapoint ∨
        process (.LiveEpoch ⟨100, 0, 0, false⟩) 30 129 = none)) :=
  ⟨process_refresh_boundary ⟨100, 0, 0, false⟩ 30 130 (by decide),
   process_refresh_boundary ⟨100, 0, 0, false⟩ 30 129 (by decide)⟩

/-- C8: the `NeedsBootstrap` state always yields `process(...) = none`, for
every epoch length and every height. -/
theorem process_needs_bootstrap (epoch_length height : Nat) :
    process .NeedsBootstrap epoch_length height = none := rfl

/-- C9: `process` is deterministic — identical inputs always yield identical
output; two calls on the same snapshot never produce different commands. -/
theorem process_deterministic (s₁ s₂ : PoolState) (l₁ l₂ h₁ h₂ : Nat)
    (hs : s₁ = s₂) (hl : l₁ = l₂) (hh : h₁ = h₂) :
    process s₁ l₁ h₁ = process s₂ l₂ h₂ := by
  rw [hs, hl, hh]

/-- Witness for C9 at a concrete snapshot. -/
theorem process_deterministic_witness :
    process (.LiveEpoch ⟨100, 1, 2, true⟩) 30 115 =
      process (.LiveEpoch ⟨100, 1, 2, true⟩) 30 115 :=
  process_deterministic (.LiveEpoch ⟨100, 1, 2, true⟩)
    (.LiveEpoch ⟨100, 1, 2, true⟩) 30 30 115 115 rfl rfl rfl

/-- One operator's last-committed observation (spec data model: the operator's
public key, the observed value, and the ledger height at which it was
committed).  Public keys are held as opaque numeric identifiers. -/
structure Datapoint where
  public_key : Nat
  value : Int
  creation_height : Nat
  deriving DecidableEq, Repr

/-- Modelled from the spec: `pool_commands::refresh::RefreshActionError` is
not under src; the variant `FailedToReachConsensus { expected,
found_public_keys, found_num }` is named by main.rs, plus a catch-all for the
other build failures of the refresh path. -/
inductive RefreshActionError where
  | FailedToReachConsensus (expected : Nat) (found_public_keys : List Nat)
      (found_num : Nat)
  | RefreshBoxError (msg : String)
  deriving DecidableEq, Repr

/-- Modelled from the spec: `pool_commands::publish_datapoint::
PublishDatapointActionError` is not under src; the variant `DataPointSource`
(external datapoint source unavailable) is named by main.rs, plus a catch-all
for the other build failures of the publish path. -/
inductive PublishDatapointActionError where
  | DataPointSource (msg : String)
  | PublishBoxError (msg : String)
  deriving DecidableEq, Repr

/-- Modelled from the spec: `pool_commands::PoolCommandError` is not under
src; it wraps the per-command error types (the two wrapped variants are named
by main.rs) plus a catch-all for other command failures. -/
inductive PoolCommandError where
  | RefreshActionError (e : RefreshActionError)
  | PublishDatapointActionError (e : PublishDatapointActionError)
  | Unexpected (msg : String)
  deriving DecidableEq, Repr

/-- A new reward token (token id held as its 32 decoded bytes). -/
structure Token where
  token_id : List Nat
  amount : Nat
  deriving DecidableEq, Repr

/-- The refresh transaction intent: consumes the qualifying datapoint boxes
and produces a new pool box with the updated value and new epoch start. -/
structure RefreshAction where
  aggregated_value : Int
  consumed_datapoint_keys : List Nat
  new_epoch_start_height : Nat
  deriving DecidableEq, Repr

/-- A fully specified but unsigned transaction intent, tagged by kind (spec
data model `PoolAction`). -/
inductive PoolAction where
  | RefreshAct (a : RefreshAction)
  | PublishDatapointAct (value : Int)
  | VoteUpdatePoolAct (pool_box_hash : List Nat) (reward_token : Token)
      (update_box_creation_height : Nat)
  | UpdatePoolAct (pool_box_hash : List Nat) (new_reward_tokens : Option Token)
  | PrepareUpdateAct (pool_box_hash : List Nat)
  deriving DecidableEq, Repr

/-- The wallet/box context the action builder reads: the collected datapoint
boxes, the refresh-box consensus parameters (minimum datapoint count, maximum
deviation), the epoch start, and the external datapoint source's response. -/
structure BuildContext where
  datapoints : List Datapoint
  min_data_points : Nat
  max_deviation : Nat
  epoch_start_height : Nat
  datapoint_source : Except String Int
  deriving Repr

/-- Modelled from the spec: datapoints whose committing height falls outside
the freshness window (the current epoch window, from the epoch start up to
the current height) are discarded before aggregation. -/
def fresh_datapoints (ctx : BuildContext) (height : Nat) : List Datapoint :=
  ctx.datapoints.filter fun d =>
    decide (ctx.epoch_start_height ≤ d.creation_height) &&
      decide (d.creation_height ≤ height)

/-- Modelled from the spec: the reference value is a deviation-filtered
average of the remaining datapoints (the exact aggregation rule is a pool
policy parameter; the arithmetic mean is used here). -/
def aggregateValue (ds : List Datapoint) : Int :=
  if ds.length = 0 then 0 else (ds.map Datapoint.value).sum / ds.length

/-- Modelled from the spec: the datapoints that qualify for a refresh — fresh
datapoints lying within the configured maximum deviation of the reference
value computed over the fresh datapoints. -/
def successful_datapoints (ctx : BuildContext) (height : Nat) :
    List Datapoint :=
  let fresh := fresh_datapoints ctx height
  let reference := aggregateValue fresh
  fresh.filter fun d => decide ((d.value - reference).natAbs ≤ ctx.max_deviation)

/-- Modelled from the spec: the consensus-critical refresh build path of
`pool_commands::refresh` (not under src).  If the count of datapoints within
tolerance is below the configured minimum, fail with
`FailedToReachConsensus { expected, found_public_keys, found_num }` carrying
the public keys of the oracles whose datapoints did qualify; otherwise
construct the refresh intent with the updated value and new epoch start. -/
def build_refresh_action (ctx : BuildContext) (height : Nat) :
    Except RefreshActionError RefreshAction :=
  let good := successful_datapoints ctx height
  if good.length < ctx.min_data_points then
    .error (.FailedToReachConsensus ctx.min_data_points
      (good.map Datapoint.public_key) good.length)
  else
    .ok { aggregated_value := aggregateValue good,
          consumed_datapoint_keys := good.map Datapoint.public_key,
          new_epoch_start_height := height }

/-- Modelled from the spec: the publish build path fetches the latest value
from the external datapoint source and fails with `DataPointSource` when the
source cannot produce a value. -/
def build_publish_datapoint_action (ctx : BuildContext) :
    Except PublishDatapointActionError PoolAction :=
  match ctx.datapoint_source with
  | .error e => .error (.DataPointSource e)
  | .ok v => .ok (.PublishDatapointAct v)

/-- Modelled from the spec: `pool_commands::build_action` (not under src)
translates a command into a transaction intent.  Governance commands are
never routed through it by the control loop — main.rs invokes them via the
administrative path — so they map to an `Unexpected` error here. -/
def build_action (cmd : EpochCommand) (ctx : BuildContext) (height : Nat) :
    Except PoolCommandError PoolAction :=
  match cmd with
  | .Refresh =>
    match build_refresh_action ctx height with
    | .error e => .error (.RefreshActionError e)
    | .ok a => .ok (.RefreshAct a)
  | .PublishDatapoint =>
    match build_publish_datapoint_action ctx with
    | .error e => .error (.PublishDatapointActionError e)
    | .ok a => .ok a
  | .VoteUpdatePool => .error (.Unexpected "administrative command")
  | .UpdatePool => .error (.Unexpected "administrative command")
  | .PrepareUpdate => .error (.Unexpected "administrative command")

/-- The two error kinds the control loop classifies as non-fatal
(main.rs lines 427-443). -/
def is_non_fatal : PoolCommandError → Bool
  | .RefreshActionError (.FailedToReachConsensus _ _ _) => true
  | .PublishDatapointActionError (.DataPointSource _) => true
  | _ => false

/-- The control loop's failure classifier (main.rs lines 421-446): a built
action passes through, the two expected failures are logged and swallowed so
the iteration continues, and every other error propagates unchanged.  The
network prefix argument of the source is used only to render addresses in the
log line and is omitted. -/
def log_and_continue_if_non_fatal
    (res : Except PoolCommandError PoolAction) :
    Except PoolCommandError (Option PoolAction) :=
  match res with
  | .ok action => .ok (some action)
  | .error (.RefreshActionError
      (.FailedToReachConsensus _expected _found_public_keys _found_num)) =>
    .ok none
  | .error (.PublishDatapointActionError (.DataPointSource _e)) => .ok none
  | .error e => .error e

/-- C2: whenever fewer than the configured minimum of datapoints lie within
the configured maximum deviation of the aggregate, `build_action` for the
Refresh command fails with `FailedToReachConsensus` carrying exactly the
public keys of the qualifying datapoints and their count, and never returns a
successful Refresh action. -/
theorem build_action_refresh_consensus (ctx : BuildContext) (height : Nat)
    (hlt : (successful_datapoints ctx height).length < ctx.min_data_points) :
    build_action .Refresh ctx height =
      .error (.RefreshActionError (.FailedToReachConsensus ctx.min_data_points
        ((successful_datapoints ctx height).map Datapoint.public_key)
        (successful_datapoints ctx height).length)) ∧
    ∀ a, build_action .Refresh ctx height ≠ .ok a := by
  unfold build_action build_refresh_action
  simp only [hlt, if_true]
  exact ⟨trivial, fun a h => by simp at h⟩

/-- The spec's end-to-end scenario B context: six datapoint boxes, the
minimum is four, and only three lie within the deviation tolerance. -/
def consensus_failure_ctx : BuildContext :=
  { datapoints :=
      [⟨1, 100, 110⟩, ⟨2, 102, 111⟩, ⟨3, 98, 112⟩,
       ⟨4, 500, 113⟩, ⟨5, 10, 114⟩, ⟨6, 80, 115⟩],
    min_data_points := 4,
    max_deviation := 60,
    epoch_start_height := 100,
    datapoint_source := .ok 0 }

/-- Witness for C2 at the scenario-B context. -/
theorem build_action_refresh_consensus_witness :
    build_action .Refresh consensus_failure_ctx 120 =
      .error (.RefreshActionError (.FailedToReachConsensus
        consensus_failure_ctx.min_data_points
        ((successful_datapoints consensus_failure_ctx 120).map
          Datapoint.public_key)
        (successful_datapoints consensus_failure_ctx 120).length)) ∧
    ∀ a, build_action .Refresh consensus_failure_ctx 120 ≠ .ok a :=
  build_action_refresh_consensus consensus_failure_ctx 120 (by decide)

/-- C3: the failure classifier returns `Ok(Some(action))` on a successful
build, swallows exactly the two non-fatal error kinds (consensus not reached,
datapoint source unavailable) returning `Ok(None)`, and propagates every
other error unchanged. -/
theorem log_and_continue_classification :
    (∀ a, log_and_continue_if_non_fatal (.ok a) = .ok (some a)) ∧
    (∀ e, is_non_fatal e = true →
      log_and_continue_if_non_fatal (.error e) = .ok none) ∧
    (∀ e, is_non_fatal e = false →
      log_and_continue_if_non_fatal (.error e) = .error e) := by
  refine ⟨fun a => rfl, fun e he => ?_, fun e he => ?_⟩
  · match e with
    | .RefreshActionError (.FailedToReachConsensus _ _ _) => rfl
    | .RefreshActionError (.RefreshBoxError _) => simp [is_non_fatal] at he
    | .PublishDatapointActionError (.DataPointSource _) => rfl
    | .PublishDatapointActionError (.PublishBoxError _) =>
      simp [is_non_fatal] at he
    | .Unexpected _ => simp [is_non_fatal] at he
  · match e with
    | .RefreshActionError (.FailedToReachConsensus _ _ _) =>
      simp [is_non_fatal] at he
    | .RefreshActionError (.RefreshBoxError _) => rfl
    | .PublishDatapointActionError (.DataPointSource _) =>
      simp [is_non_fatal] at he
    | .PublishDatapointActionError (.PublishBoxError _) => rfl
    | .Unexpected _ => rfl

/-- Witness for C3: a consensus failure is swallowed, an unclassified error
propagates unchanged. -/
theorem log_and_continue_classification_witness :
    log_and_continue_if_non_fatal
        (.error (.RefreshActionError (.FailedToReachConsensus 4 [1, 2, 3] 3))) =
      .ok none ∧
    log_and_continue_if_non_fatal (.error (.Unexpected "boom")) =
      .error (.Unexpected "boom") :=
  ⟨log_and_continue_classification.2.1
      (.RefreshActionError (.FailedToReachConsensus 4 [1, 2, 3] 3)) rfl,
   log_and_continue_classification.2.2 (.Unexpected "boom") rfl⟩

/-- The external snapshot one control-loop iteration reads: the node's answer
for the current height and change address, the box repository's answer for
the live epoch state, the configured epoch length, the builder context, and
the outcome of submitting an action to the ledger. -/
structure LoopEnv where
  current_block_height : Except String Nat
  change_address : Except String Nat
  live_epoch_state : Except String LiveEpochState
  epoch_length : Nat
  build_ctx : BuildContext
  execute_result : Except String Unit
  deriving Repr

/-- Errors a loop iteration can surface (the anyhow error of the source,
split by origin). -/
inductive LoopError where
  | HeightError (msg : String)
  | ChangeAddressError (msg : String)
  | CommandError (e : PoolCommandError)
  | ExecuteError (msg : String)
  deriving DecidableEq, Repr

/-- The epoch state reader step of main.rs lines 394-400: a successful read
yields `LiveEpoch` with the returned parameters, a failed read is only logged
and falls back to `NeedsBootstrap`. -/
def pool_state_of (res : Except String LiveEpochState) : PoolState :=
  match res with
  | .ok live_epoch_state => .LiveEpoch live_epoch_state
  | .error _ => .NeedsBootstrap

/-- One control-loop iteration (main.rs lines 390-419): read height, read the
change address, read state with bootstrap fallback, decide via `process`,
build, classify, and execute only when not read-only.  The returned list
records the actions actually submitted via `execute_action`. -/
def main_loop_iteration (env : LoopEnv) (read_only : Bool) :
    Except LoopError Unit × List PoolAction :=
  match env.current_block_height with
  | .error e => (.error (.HeightError e), [])
  | .ok height =>
    match env.change_address with
    | .error e => (.error (.ChangeAddressError e), [])
    | .ok _addr =>
      let pool_state := pool_state_of env.live_epoch_state
      match process pool_state env.epoch_length height with
      | none => (.ok (), [])
      | some cmd =>
        match log_and_continue_if_non_fatal (build_action cmd env.build_ctx height) with
        | .error e => (.error (.CommandError e), [])
        | .ok none => (.ok (), [])
        | .ok (some action) =>
          if read_only then
            (.ok (), [])
          else
            match env.execute_result with
            | .error e => (.error (.ExecuteError e), [])
            | .ok _ => (.ok (), [action])

/-- What the Run loop does after one iteration. -/
inductive LoopDirective where
  | ContinueAfterSleep (seconds : Nat)
  | ExitProcess (code : Nat)
  deriving DecidableEq, Repr

/-- The Run loop body (main.rs lines 297-303): run one iteration, log the
error if the iteration failed, then sleep 30 seconds and continue; the body
contains no break, return or exit.  Returns the log lines emitted and the
directive for the loop. -/
def run_loop_body (env : LoopEnv) (read_only : Bool) :
    List String × LoopDirective :=
  match (main_loop_iteration env read_only).1 with
  | .error _e => (["error"], .ContinueAfterSleep 30)
  | .ok _ => ([], .ContinueAfterSleep 30)

/-- The Run loop as a trace: iteration `n` runs the body on the `n`-th
external snapshot.  Totality of this function reflects that every iteration
is reached — the loop never terminates. -/
def run_loop_directive (envs : Nat → LoopEnv) (read_only : Bool) (n : Nat) :
    LoopDirective :=
  (run_loop_body (envs n) read_only).2

/-- C5: in a read-only iteration nothing is ever submitted to the ledger —
the list of executed actions is empty for every environment. -/
theorem read_only_never_executes (env : LoopEnv) :
    (main_loop_iteration env true).2 = [] := by
  unfold main_loop_iteration
  cases env.current_block_height with
  | error e => rfl
  | ok height =>
    cases env.change_address with
    | error e => rfl
    | ok addr =>
      simp only
      cases process (pool_state_of env.live_epoch_state) env.epoch_length height with
      | none => rfl
      | some cmd =>
        simp only
        cases log_and_continue_if_non_fatal (build_action cmd env.build_ctx height) with
        | error e => rfl
        | ok oa =>
          cases oa with
          | none => rfl
          | some action => rfl

/-- C6: when reading the live epoch state fails the pool state falls back to
`NeedsBootstrap` and the iteration completes without a hard error (given the
node reads succeed); when it succeeds the pool state is `LiveEpoch` with the
returned parameters. -/
theorem live_epoch_read_fallback (env : LoopEnv) (read_only : Bool)
    (height addr : Nat) (msg : String)
    (hh : env.current_block_height = .ok height)
    (ha : env.change_address = .ok addr)
    (hl : env.live_epoch_state = .error msg) :
    pool_state_of env.live_epoch_state = .NeedsBootstrap ∧
    (main_loop_iteration env read_only).1 = .ok () ∧
    ∀ les, pool_state_of (.ok les) = .LiveEpoch les := by
  have hps : pool_state_of env.live_epoch_state = .NeedsBootstrap := by
    rw [hl]; rfl
  refine ⟨hps, ?_, fun les => rfl⟩
  unfold main_loop_iteration
  rw [hh, ha, hps]
  rfl

/-- Witness for C6: a concrete environment whose box-repository read fails
while the node reads succeed. -/
theorem live_epoch_read_fallback_witness :
    pool_state_of
        (LoopEnv.live_epoch_state
          ⟨.ok 200, .ok 7, .error "no pool box", 30, consensus_failure_ctx,
            .ok ()⟩) = .NeedsBootstrap ∧
    (main_loop_iteration
        ⟨.ok 200, .ok 7, .error "no pool box", 30, consensus_failure_ctx,
          .ok ()⟩ false).1 = .ok () ∧
    ∀ les, pool_state_of (.ok les) = .LiveEpoch les :=
  live_epoch_read_fallback
    ⟨.ok 200, .ok 7, .error "no pool box", 30, consensus_failure_ctx, .ok ()⟩
    false 200 7 "no pool box" rfl rfl rfl

/-- C7: the Run loop never terminates — for every iteration, whatever the
outcome of `main_loop_iteration` (including any error, which is only
logged), the body directs the loop to sleep the fixed 30-second interval and
continue; no iteration ever yields an exit directive. -/
theorem run_loop_never_exits (envs : Nat → LoopEnv) (read_only : Bool)
    (n : Nat) :
    run_loop_directive envs read_only n = .ContinueAfterSleep 30 := by
  unfold run_loop_directive run_loop_body
  cases (main_loop_iteration (envs n) read_only).1 with
  | error e => rfl
  | ok u => rfl

/-- Value of one base16 digit, or none for a character that is not a hex
digit. -/
def hexDigitVal (c : Char) : Option Nat :=
  if '0' ≤ c ∧ c ≤ '9' then some (c.toNat - '0'.toNat)
  else if 'a' ≤ c ∧ c ≤ 'f' then some (c.toNat - 'a'.toNat + 10)
  else if 'A' ≤ c ∧ c ≤ 'F' then some (c.toNat - 'A'.toNat + 10)
  else none

/-- Base16 decoding of a character sequence into bytes; fails on an odd
length or a non-hex character. -/
def decodeBase16 : List Char → Option (List Nat)
  | [] => some []
  | [_] => none
  | c1 :: c2 :: rest => do
    let hi ← hexDigitVal c1
    let lo ← hexDigitVal c2
    let bytes ← decodeBase16 rest
    some ((hi * 16 + lo) :: bytes)

/-- `Digest32::try_from(String)` of the ergo library: base16-decode and
require exactly 32 bytes. -/
def digest32FromBase16 (s : String) : Option (List Nat) :=
  match decodeBase16 s.data with
  | some bytes => if bytes.length = 32 then some bytes else none
  | none => none

/-- `TokenAmount::try_from(u64)` of the ergo library: the amount must lie in
`1..=9223372036854775807`. -/
def tokenAmountFromNat (n : Nat) : Option Nat :=
  if 1 ≤ n ∧ n ≤ 9223372036854775807 then some n else none

/-- The reward-token pair handling of the UpdatePool branch (main.rs lines
365-371): `reward_token_id.zip(reward_token_amount)` produces a token only
when both halves are present, and each half is then parsed with `.unwrap()` —
a parse failure is a panic, not a returned error.  A panic is modelled as the
error case of this Except. -/
def parse_new_reward_tokens (reward_token_id : Option String)
    (reward_token_amount : Option Nat) : Except String (Option Token) :=
  match reward_token_id, reward_token_amount with
  | some token_id, some amount =>
    match digest32FromBase16 token_id with
    | none => .error "panicked: Digest32 try_from failed in unwrap"
    | some digest =>
      match tokenAmountFromNat amount with
      | none => .error "panicked: TokenAmount try_into failed in unwrap"
      | some a => .ok (some ⟨digest, a⟩)
  | _, _ => .ok none

/-- How a one-shot administrative command run ends: normal completion, the
fatal path of main.rs (`error!(...)` then `std::process::exit(SOFTWARE)`,
exit code 70), or a panic. -/
inductive CliOutcome where
  | Completed
  | FatalExit (code : Nat)
  | Panicked (msg : String)
  deriving DecidableEq, Repr

/-- True exactly for the validation-error outcome: the command logged the
error and exited with a non-zero code. -/
def is_validation_exit : CliOutcome → Bool
  | .FatalExit _ => true
  | _ => false

/-- Modelled from the spec: `cli_commands::update_pool::update_pool` is not
under src; per the spec it validates that the proposed new parameters are
well-formed (parseable hash) before constructing the transaction intent.
With no hash it only shows the config diff and constructs no intent. -/
def update_pool (new_pool_box_hash : Option String)
    (new_reward_tokens : Option Token) : Except String (Option PoolAction) :=
  match new_pool_box_hash with
  | none => .ok none
  | some h =>
    match digest32FromBase16 h with
    | none => .error "malformed new pool box hash"
    | some digest => .ok (some (.UpdatePoolAct digest new_reward_tokens))

/-- The UpdatePool branch of `handle_oracle_command` (main.rs lines 360-378):
zip-and-parse the reward token pair (panicking on a malformed half), call
`update_pool`, and exit fatally on its error.  The returned list records the
transaction intents constructed. -/
def update_pool_command (new_pool_box_hash : Option String)
    (reward_token_id : Option String) (reward_token_amount : Option Nat) :
    CliOutcome × List PoolAction :=
  match parse_new_reward_tokens reward_token_id reward_token_amount with
  | .error msg => (.Panicked msg, [])
  | .ok new_reward_tokens =>
    match update_pool new_pool_box_hash new_reward_tokens with
    | .error _ => (.FatalExit 70, [])
    | .ok none => (.Completed, [])
    | .ok (some a) => (.Completed, [a])

/-- Modelled from the spec: `cli_commands::vote_update_pool::vote_update_pool`
is not under src; per the spec it validates that the proposed new parameters
are well-formed (parseable hash, parseable token id, positive amount) before
constructing the transaction intent. -/
def vote_update_pool (new_pool_box_address_hash_str : String)
    (reward_token_id_str : String) (reward_token_amount : Nat)
    (update_box_creation_height : Nat) : Except String PoolAction :=
  match digest32FromBase16 new_pool_box_address_hash_str with
  | none => .error "malformed new pool box address hash"
  | some digest =>
    match digest32FromBase16 reward_token_id_str with
    | none => .error "malformed reward token id"
    | some token_digest =>
      if reward_token_amount = 0 then
        .error "reward token amount must be positive"
      else
        .ok (.VoteUpdatePoolAct digest ⟨token_digest, reward_token_amount⟩
          update_box_creation_height)

/-- The VoteUpdatePool branch of `handle_oracle_command` (main.rs lines
341-359): call `vote_update_pool` and exit fatally on its error. -/
def vote_update_pool_command (new_pool_box_address_hash_str : String)
    (reward_token_id_str : String) (reward_token_amount : Nat)
    (update_box_creation_height : Nat) : CliOutcome × List PoolAction :=
  match vote_update_pool new_pool_box_address_hash_str reward_token_id_str
      reward_token_amount update_box_creation_height with
  | .error _ => (.FatalExit 70, [])
  | .ok a => (.Completed, [a])

/-- The proposed parameters read from a prepare-update parameters file. -/
structure UpdateParams where
  new_pool_box_hash : String
  reward_token_id : Option String
  reward_token_amount : Option Nat
  deriving DecidableEq, Repr

/-- Modelled from the spec: `cli_commands::prepare_update::prepare_update` is
not under src; per the spec it validates that the proposed new parameters
are well-formed (readable file, parseable hash and token id, positive
amount) before constructing the transaction intent.  The file system is
passed in as a lookup from file name to parsed parameters. -/
def prepare_update (files : String → Option UpdateParams)
    (update_file : String) : Except String PoolAction :=
  match files update_file with
  | none => .error "cannot read or parse the update parameters file"
  | some p =>
    match digest32FromBase16 p.new_pool_box_hash with
    | none => .error "malformed new pool box hash"
    | some digest =>
      match p.reward_token_id with
      | none => .ok (.PrepareUpdateAct digest)
      | some tid =>
        match digest32FromBase16 tid with
        | none => .error "malformed reward token id"
        | some _ =>
          match p.reward_token_amount with
          | none => .error "reward token amount required with new token id"
          | some amount =>
            if amount = 0 then
              .error "reward token amount must be positive"
            else
              .ok (.PrepareUpdateAct digest)

/-- The PrepareUpdate branch of `handle_oracle_command` (main.rs lines
379-384): call `prepare_update` and exit fatally on its error. -/
def prepare_update_command (files : String → Option UpdateParams)
    (update_file : String) : CliOutcome × List PoolAction :=
  match prepare_update files update_file with
  | .error _ => (.FatalExit 70, [])
  | .ok a => (.Completed, [a])

/-- A well-formed 64-character base16 hash string. -/
def hex64 : String :=
  "0000000000000000000000000000000000000000000000000000000000000000"

/-- C10: for UpdatePool, supplying exactly one half of the reward-token pair
is silently treated as no reward-token change (the zip yields none and the
handler behaves as if neither was given), never an error; a new token is
passed on only when both halves are present. -/
theorem update_pool_partial_reward_pair :
    (∀ tid, parse_new_reward_tokens (some tid) none = .ok none) ∧
    (∀ amt, parse_new_reward_tokens none (some amt) = .ok none) ∧
    (∀ h tid, update_pool_command h (some tid) none =
      update_pool_command h none none) ∧
    (∀ h amt, update_pool_command h none (some amt) =
      update_pool_command h none none) ∧
    (∀ tid amt t, parse_new_reward_tokens tid amt = .ok (some t) →
      tid.isSome = true ∧ amt.isSome = true) := by
  refine ⟨fun tid => rfl, fun amt => rfl, fun h tid => rfl, fun h amt => rfl,
    ?_⟩
  intro tid amt t hpt
  match tid, amt with
  | none, none => simp [parse_new_reward_tokens] at hpt
  | none, some a => simp [parse_new_reward_tokens] at hpt
  | some s, none => simp [parse_new_reward_tokens] at hpt
  | some s, some a => exact ⟨rfl, rfl⟩

/-- Witness for C10: a concrete id-without-amount call collapses to the
no-change call, and a fully supplied well-formed pair is recognised as
present on both sides. -/
theorem update_pool_partial_reward_pair_witness :
    update_pool_command (some hex64) (some hex64) none =
      update_pool_command (some hex64) none none ∧
    ((some hex64).isSome = true ∧ (some (5 : Nat)).isSome = true) :=
  ⟨update_pool_partial_reward_pair.2.2.1 (some hex64) hex64,
   update_pool_partial_reward_pair.2.2.2.2 (some hex64) (some 5)
     ⟨List.replicate 32 0, 5⟩
     (by
       unfold parse_new_reward_tokens
       norm_num [digest32FromBase16, hex64, tokenAmountFromNat]
       rfl)⟩

/-- C4 counterexample: for the UpdatePool command an unparseable reward token
id supplied together with an amount does not fail with a validation error —
the handler panics on the `.unwrap()` of `Digest32::try_from` instead. -/
theorem update_pool_malformed_token_panic :
    digest32FromBase16 "zz" = none ∧
    (update_pool_command (some hex64) (some "zz") (some 5)).1 =
      .Panicked "panicked: Digest32 try_from failed in unwrap" ∧
    is_validation_exit
      (update_pool_command (some hex64) (some "zz") (some 5)).1 = false :=
  ⟨by decide, rfl, rfl⟩

/-- C4 (amended): malformed proposed parameters never produce a transaction
intent.  VoteUpdatePool and PrepareUpdate fail with a validation error and
the fatal exit (code 70, `exitcode::SOFTWARE`) for every malformed kind:
unparseable hash, unparseable token id, missing or non-positive amount,
unreadable parameters file.  UpdatePool fails with the same validation-error
exit on a malformed new pool box hash (once the reward-token pair itself
parsed), but panics on the `.unwrap()` — with the Digest32 message for an
unparseable reward token id and the TokenAmount message for an out-of-range
amount — when both halves of the pair are supplied.  In every case the
action list stays empty: nothing reaches the ledger. -/
theorem governance_params_checked_before_intent :
    (∀ hash tid amt h, digest32FromBase16 hash = none →
      vote_update_pool_command hash tid amt h = (.FatalExit 70, [])) ∧
    (∀ hash tid amt h, digest32FromBase16 tid = none →
      vote_update_pool_command hash tid amt h = (.FatalExit 70, [])) ∧
    (∀ hash tid h,
      vote_update_pool_command hash tid 0 h = (.FatalExit 70, [])) ∧
    (∀ files f, files f = none →
      prepare_update_command files f = (.FatalExit 70, [])) ∧
    (∀ files f p, files f = some p →
      digest32FromBase16 p.new_pool_box_hash = none →
      prepare_update_command files f = (.FatalExit 70, [])) ∧
    (∀ files f p tid, files f = some p → p.reward_token_id = some tid →
      digest32FromBase16 tid = none →
      prepare_update_command files f = (.FatalExit 70, [])) ∧
    (∀ files f p tid, files f = some p → p.reward_token_id = some tid →
      p.reward_token_amount = none →
      prepare_update_command files f = (.FatalExit 70, [])) ∧
    (∀ files f p tid, files f = some p → p.reward_token_id = some tid →
      p.reward_token_amount = some 0 →
      prepare_update_command files f = (.FatalExit 70, [])) ∧
    (∀ hstr tid amt toks, digest32FromBase16 hstr = none →
      parse_new_reward_tokens tid amt = .ok toks →
      update_pool_command (some hstr) tid amt = (.FatalExit 70, [])) ∧
    (∀ hstr tid amt, digest32FromBase16 hstr = none →
      (update_pool_command (some hstr) tid amt).2 = [] ∧
      (update_pool_command (some hstr) tid amt).1 ≠ .Completed) ∧
    (∀ h tid amt, digest32FromBase16 tid = none →
      update_pool_command h (some tid) (some amt) =
        (.Panicked "panicked: Digest32 try_from failed in unwrap", [])) ∧
    (∀ h tid amt d, digest32FromBase16 tid = some d →
      tokenAmountFromNat amt = none →
      update_pool_command h (some tid) (some amt) =
        (.Panicked "panicked: TokenAmount try_into failed in unwrap", [])) ∧
    (∀ h tid amt, tokenAmountFromNat amt = none →
      ∃ msg, update_pool_command h (some tid) (some amt) =
        (.Panicked msg, [])) := by
  refine ⟨?_, ?_, ?_, ?_, ?_, ?_, ?_, ?_, ?_, ?_, ?_, ?_, ?_⟩
  · intro hash tid amt h hbad
    simp [vote_update_pool_command, vote_update_pool, hbad]
  · intro hash tid amt h hbad
    cases hh : digest32FromBase16 hash with
    | none => simp [vote_update_pool_command, vote_update_pool, hh]
    | some d => simp [vote_update_pool_command, vote_update_pool, hh, hbad]
  · intro hash tid h
    cases hh : digest32FromBase16 hash with
    | none => simp [vote_update_pool_command, vote_update_pool, hh]
    | some d =>
      cases ht : digest32FromBase16 tid with
      | none => simp [vote_update_pool_command, vote_update_pool, hh, ht]
      | some td => simp [vote_update_pool_command, vote_update_pool, hh, ht]
  · intro files f hnone
    simp [prepare_update_command, prepare_update, hnone]
  · intro files f p hp hbad
    simp [prepare_update_command, prepare_update, hp, hbad]
  · intro files f p tid hp htid hbad
    cases hh : digest32FromBase16 p.new_pool_box_hash with
    | none => simp [prepare_update_command, prepare_update, hp, hh]
    | some d =>
      simp [prepare_update_command, prepare_update, hp, hh, htid, hbad]
  · intro files f p tid hp htid hamt
    cases hh : digest32FromBase16 p.new_pool_box_hash with
    | none => simp [prepare_update_command, prepare_update, hp, hh]
    | some d =>
      cases ht : digest32FromBase16 tid with
      | none =>
        simp [prepare_update_command, prepare_update, hp, hh, htid, ht]
      | some td =>
        simp [prepare_update_command, prepare_update, hp, hh, htid, ht, hamt]
  · intro files f p tid hp htid hamt
    cases hh : digest32FromBase16 p.new_pool_box_hash with
    | none => simp [prepare_update_command, prepare_update, hp, hh]
    | some d =>
      cases ht : digest32FromBase16 tid with
      | none =>
        simp [prepare_update_command, prepare_update, hp, hh, htid, ht]
      | some td =>
        simp [prepare_update_command, prepare_update, hp, hh, htid, ht, hamt]
  · intro hstr tid amt toks hbad hok
    simp [update_pool_command, hok, update_pool, hbad]
  · intro hstr tid amt hbad
    cases hp : parse_new_reward_tokens tid amt with
    | error msg => constructor <;> simp [update_pool_command, hp]
    | ok toks =>
      constructor <;> simp [update_pool_command, hp, update_pool, hbad]
  · intro h tid amt hbad
    simp [update_pool_command, parse_new_reward_tokens, hbad]
  · intro h tid amt d htid hbad
    simp [update_pool_command, parse_new_reward_tokens, htid, hbad]
  · intro h tid amt hbad
    cases ht : digest32FromBase16 tid with
    | none =>
      exact ⟨"panicked: Digest32 try_from failed in unwrap",
        by simp [update_pool_command, parse_new_reward_tokens, ht]⟩
    | some d =>
      exact ⟨"panicked: TokenAmount try_into failed in unwrap",
        by simp [update_pool_command, parse_new_reward_tokens, ht, hbad]⟩

/-- Witness for the amended C4 at concrete malformed inputs: every validation
failure of the three commands ends in the fatal exit with an empty action
list, and the two UpdatePool unwrap failures end in the panic outcomes. -/
theorem governance_params_checked_before_intent_witness :
    vote_update_pool_command "zz" hex64 5 100 = (.FatalExit 70, []) ∧
    vote_update_pool_command hex64 "zz" 5 100 = (.FatalExit 70, []) ∧
    vote_update_pool_command hex64 hex64 0 100 = (.FatalExit 70, []) ∧
    prepare_update_command (fun _ => none) "update.yaml" =
      (.FatalExit 70, []) ∧
    prepare_update_command (fun _ => some ⟨"zz", none, none⟩) "update.yaml" =
      (.FatalExit 70, []) ∧
    prepare_update_command (fun _ => some ⟨hex64, some "zz", some 5⟩)
      "update.yaml" = (.FatalExit 70, []) ∧
    prepare_update_command (fun _ => some ⟨hex64, some hex64, none⟩)
      "update.yaml" = (.FatalExit 70, []) ∧
    prepare_update_command (fun _ => some ⟨hex64, some hex64, some 0⟩)
      "update.yaml" = (.FatalExit 70, []) ∧
    update_pool_command (some "zz") (some hex64) (some 5) =
      (.FatalExit 70, []) ∧
    update_pool_command (some hex64) (some "zz") (some 5) =
      (.Panicked "panicked: Digest32 try_from failed in unwrap", []) ∧
    update_pool_command (some hex64) (some hex64) (some 0) =
      (.Panicked "panicked: TokenAmount try_into failed in unwrap", []) ∧
    (∃ msg, update_pool_command (some hex64) (some hex64) (some 0) =
      (.Panicked msg, [])) := by
  obtain ⟨hv1, hv2, hv3, hp1, hp2, hp3, hp4, hp5, hu1, _hu2, hu3, hu4, hu5⟩ :=
    governance_params_checked_before_intent
  exact ⟨hv1 "zz" hex64 5 100 (by decide),
    hv2 hex64 "zz" 5 100 (by decide),
    hv3 hex64 hex64 100,
    hp1 (fun _ => none) "update.yaml" rfl,
    hp2 (fun _ => some ⟨"zz", none, none⟩) "update.yaml" ⟨"zz", none, none⟩
      rfl (by decide),
    hp3 (fun _ => some ⟨hex64, some "zz", some 5⟩) "update.yaml"
      ⟨hex64, some "zz", some 5⟩ "zz" rfl rfl (by decide),
    hp4 (fun _ => some ⟨hex64, some hex64, none⟩) "update.yaml"
      ⟨hex64, some hex64, none⟩ hex64 rfl rfl rfl,
    hp5 (fun _ => some ⟨hex64, some hex64, some 0⟩) "update.yaml"
      ⟨hex64, some hex64, some 0⟩ hex64 rfl rfl rfl,
    hu1 "zz" (some hex64) (some 5) (some ⟨List.replicate 32 0, 5⟩) (by decide)
      (by
        unfold parse_new_reward_tokens
        norm_num [digest32FromBase16, hex64, tokenAmountFromNat]
        rfl),
    hu3 (some hex64) "zz" 5 (by decide),
    hu4 (some hex64) hex64 0 (List.replicate 32 0) (by decide) (by decide),
    hu5 (some hex64) hex64 0 (by decide)⟩
